import Mathlib

/-!
Shallow embedding of the coordination core of the MongoDB machine operator:
the status aggregator, the per-node replication-health signal, the topology
validator, the backup-state classifier, and the replica-set membership
coordinator, together with theorems checking the specification's claims
against these definitions.

The concrete implementation package of this repository is not shipped under
src/ (only its unit and integration tests are), so the definitions below are
modelled from the specification's component descriptions, with the exact
status strings taken from the repository's own tests where those pin them.
-/

/-- Severity of a unit status, mirroring the four ops status classes
(ActiveStatus, WaitingStatus, BlockedStatus, MaintenanceStatus). -/
inductive Severity
  | active
  | waiting
  | blocked
  | maintenance
deriving DecidableEq, Repr

/-- Modelled from the spec: a StatusSignal is a severity together with a
human-readable message (the spec's `StatusSignal{source, severity, message}`;
the source is positional below). -/
structure StatusSignal where
  severity : Severity
  message : String
deriving DecidableEq, Repr

/-- Modelled from the spec: the four independent status signals collected by
the status manager, in the fixed precedence order used by
`prioritize_statuses` (the `Statuses` dataclass of `single_kernel_mongo.status`,
which is absent from src/; field order as in tests/unit/test_set_status.py).
The node replication-health (mongodb) signal is always present; the
sharding/topology (shard), cross-cluster (config_server) and backup (pbm)
signals may be absent. -/
structure Statuses where
  mongodb : StatusSignal
  shard : Option StatusSignal
  config_server : Option StatusSignal
  pbm : Option StatusSignal
deriving DecidableEq, Repr

/-- Modelled from the spec: a signal is forwarded by the aggregator only when
it is present and not Active. -/
def nonActiveSignal (o : Option StatusSignal) : Option StatusSignal :=
  o.bind (fun s => if s.severity = Severity.active then none else some s)

/-- Modelled from the spec: `StatusManager.prioritize_statuses` (absent from
src/) merges the independent signals by fixed precedence — the first
non-Active, non-absent signal in the order mongodb, shard, config_server, pbm
wins; when every signal is Active or absent the mongodb signal is reported. -/
def prioritize_statuses (st : Statuses) : StatusSignal :=
  (([some st.mongodb, st.shard, st.config_server, st.pbm].findSome? nonActiveSignal)).getD
    st.mongodb

/-- Replica-set member state labels that mean the member is still syncing. -/
def syncing_states : List String :=
  ["STARTUP", "STARTUP2", "RECOVERING", "ROLLBACK"]

/-- Lookup of the own address in the health map returned by replSetGetStatus,
modelled as an association list from member address to state label. -/
def replset_lookup (statusMap : List (String × String)) (addr : String) : Option String :=
  (statusMap.find? (fun p => p.1 = addr)).map Prod.snd

/-- Modelled from the spec: the node replication-health signal computed by the
status manager (absent from src/) from the replSetGetStatus health map and the
unit's own address; status strings pinned by tests/unit/test_charm.py. -/
def unit_health_signal (statusMap : List (String × String)) (selfAddr : String) :
    StatusSignal :=
  match replset_lookup statusMap selfAddr with
  | none => { severity := Severity.waiting, message := "Member being added." }
  | some label =>
    if label = "PRIMARY" then { severity := Severity.active, message := "Primary" }
    else if label = "SECONDARY" then { severity := Severity.active, message := "" }
    else if label ∈ syncing_states then
      { severity := Severity.waiting, message := "Member is syncing..." }
    else if label = "REMOVED" then
      { severity := Severity.waiting, message := "Member is removing..." }
    else { severity := Severity.blocked, message := label }

/-- A signal, when present, is Active (the aggregator passes over it). -/
def active_or_absent (o : Option StatusSignal) : Prop :=
  ∀ s, o = some s → s.severity = Severity.active

/-- Modelled from the spec: the node's declared role, fixed at deployment. -/
inductive Role
  | replication
  | shard
  | configServer
  | router
deriving DecidableEq, Repr

/-- Modelled from the spec: the kinds of external integrations a node may
hold. -/
inductive IntegrationKind
  | configServerLink
  | shardLink
  | routerLink
  | backupLink
  | certificateLink
  | clientLink
deriving DecidableEq, Repr

/-- Modelled from the spec: an Integration carries its kind, whether that side
has TLS enabled, and an optional CA fingerprint. -/
structure Integration where
  kind : IntegrationKind
  tlsEnabled : Bool
  caFingerprint : Option String
deriving DecidableEq, Repr

/-- Presence of an integration of the given kind. -/
def has_kind (ints : List Integration) (k : IntegrationKind) : Bool :=
  ints.any (fun i => i.kind = k)

/-- First integration of the given kind, if any. -/
def find_kind (ints : List Integration) (k : IntegrationKind) : Option Integration :=
  ints.find? (fun i => i.kind = k)

/-- Number of integrations of the given kind. -/
def count_kind (ints : List Integration) (k : IntegrationKind) : Nat :=
  (ints.filter (fun i => i.kind = k)).length

/-- Modelled from the spec: TLS-parity and CA-consistency check for a
ShardLink/ConfigServerLink pair (rules 6 and 7 of the topology validator,
whose implementation is absent from src/); the two mismatch messages are
pinned by tests/integration/sharding_tests/test_sharding_tls.py. -/
def tls_pair_status (shardSide csSide : Integration) : Option StatusSignal :=
  if shardSide.tlsEnabled ∧ ¬csSide.tlsEnabled then
    some { severity := Severity.blocked,
           message := "Shard has TLS enabled, but config-server does not." }
  else if csSide.tlsEnabled ∧ ¬shardSide.tlsEnabled then
    some { severity := Severity.blocked, message := "Shard requires TLS to be enabled" }
  else if shardSide.tlsEnabled ∧ csSide.tlsEnabled ∧
      shardSide.caFingerprint ≠ csSide.caFingerprint then
    some { severity := Severity.blocked,
           message := "certificate authority mismatch between shard and config-server" }
  else none

/-- Modelled from the spec: the TopologyValidator (absent from src/), a pure
function of the declared role and the current integration set, evaluated in
fixed precedence with the first matching rule winning; `none` means Ok. -/
def topology_validator (role : Role) (ints : List Integration) : Option StatusSignal :=
  if (role = Role.shard ∨ role = Role.configServer) ∧
      has_kind ints IntegrationKind.clientLink then
    some { severity := Severity.blocked,
           message := "sharding role incompatible with direct-client integration" }
  else if role = Role.replication ∧
      (has_kind ints IntegrationKind.shardLink ∨
        has_kind ints IntegrationKind.configServerLink) then
    some { severity := Severity.blocked,
           message := "replica-set role cannot participate in sharding topology" }
  else if role = Role.shard ∧ count_kind ints IntegrationKind.configServerLink > 1 then
    some { severity := Severity.blocked,
           message := "shard has multiple config-server links" }
  else if has_kind ints IntegrationKind.routerLink ∧ role ≠ Role.configServer then
    some { severity := Severity.blocked,
           message := "router integration requires config-server role" }
  else if role = Role.shard ∧ has_kind ints IntegrationKind.backupLink then
    some { severity := Severity.blocked,
           message := "backup integration requires config-server role" }
  else if role = Role.shard then
    match find_kind ints IntegrationKind.shardLink,
        find_kind ints IntegrationKind.configServerLink with
    | some s, some c => tls_pair_status s c
    | _, _ => none
  else none

/-- Modelled from the spec: the `running` object found in the backup agent's
status output, carrying the operation kind (the JSON field named type) and the
operation id. -/
structure RunningOp where
  opKind : String
  opID : String
deriving DecidableEq, Repr

/-- Modelled from the spec: the observable outcome of one BackupAgentProbe
call, as consumed by the BackupStateClassifier (absent from src/): either no
backup configuration is present at all, or the probe command failed and left
some output, or it succeeded and reported an optional `running` object. -/
inductive PbmProbe
  | noConfig
  | failureOutput (stdout : String)
  | statusOutput (running : Option RunningOp)
deriving DecidableEq, Repr

/-- Character-list test that `pat` is an initial segment of `s`. -/
def chars_lead : List Char → List Char → Bool
  | [], _ => true
  | _ :: _, [] => false
  | a :: as, b :: bs => a = b && chars_lead as bs

/-- Character-list test that `pat` occurs contiguously somewhere in `s`. -/
def chars_found (pat : List Char) : List Char → Bool
  | [] => pat.isEmpty
  | c :: rest => chars_lead pat (c :: rest) || chars_found pat rest

/-- Substring test used to spot the error codes embedded in failed probe
output. -/
def contains_substr (s pat : String) : Bool :=
  chars_found pat.toList s.toList

/-- Modelled from the spec: `BackupManager.get_status` (absent from src/)
classifying raw probe output into an optional backup StatusSignal; an
unclassifiable probe failure propagates as an error instead of being absorbed.
Probe fixtures come from tests/unit/test_mongodb_backups.py. -/
def get_pbm_status : PbmProbe → Except String (Option StatusSignal)
  | PbmProbe.noConfig => Except.ok none
  | PbmProbe.failureOutput out =>
    if contains_substr out "status code: 403" then
      Except.ok (some { severity := Severity.blocked,
                        message := "s3 credentials are incorrect." })
    else if contains_substr out "status code: 404" then
      Except.ok (some { severity := Severity.blocked,
                        message := "s3 configurations are incompatible." })
    else Except.error out
  | PbmProbe.statusOutput none =>
    Except.ok (some { severity := Severity.active, message := "" })
  | PbmProbe.statusOutput (some op) =>
    if op.opKind = "resync" then
      Except.ok (some { severity := Severity.waiting,
                        message := "waiting to sync s3 configurations." })
    else
      Except.ok (some { severity := Severity.maintenance,
                        message := "backup " ++ op.opKind ++ " in progress, op id: "
                          ++ op.opID })

/-- Severity, if any, of the classified backup signal for a probe outcome. -/
def pbm_signal_severity (p : PbmProbe) : Option Severity :=
  (get_pbm_status p).toOption.join.map StatusSignal.severity

/-- Modelled from the spec: a replica-set configuration, a member list with a
monotonic version counter, held by the database and mutated only through
`reconfigure`. -/
structure ReplicaSetConfig where
  members : List String
  version : Nat
deriving DecidableEq, Repr

/-- Outcome of one reconfigure request at the database. -/
inductive ReconfigResult
  | accepted
  | versionConflict
deriving DecidableEq, Repr

/-- Modelled from the spec: the database's `reconfigure` operation (the
DatabaseClient capability is external), a compare-and-swap on the version: an
accepted write installs the new member list and bumps the version by one, a
version conflict rejects the write and leaves the configuration unchanged. -/
def reconfigure (cfg : ReplicaSetConfig) (newMembers : List String)
    (expectedVersion : Nat) : ReplicaSetConfig × ReconfigResult :=
  if expectedVersion = cfg.version then
    ({ members := newMembers, version := cfg.version + 1 }, ReconfigResult.accepted)
  else (cfg, ReconfigResult.versionConflict)

/-- One reconfigure request of a history. -/
structure ReconfigReq where
  newMembers : List String
  expectedVersion : Nat
deriving DecidableEq, Repr

/-- Folds a history of reconfigure requests through the database. -/
def applyReconfigs (cfg : ReplicaSetConfig) : List ReconfigReq → ReplicaSetConfig
  | [] => cfg
  | r :: rs => applyReconfigs (reconfigure cfg r.newMembers r.expectedVersion).1 rs

/-- Modelled from the spec: the classified errors the DatabaseClient may
raise (pymongo's ConnectionFailure, ConfigurationError, OperationFailure in
the tests). -/
inductive DbError
  | connectionFailure (msg : String)
  | configurationError (msg : String)
  | operationFailure (msg : String)
deriving DecidableEq, Repr

/-- Errors surfaced by a membership operation: either a DatabaseClient error
propagated unchanged, or the StructuralNotReady error (NotReadyError). -/
inductive OpError
  | db (e : DbError)
  | notReady
deriving DecidableEq, Repr

/-- Administrative commands a connection issues against the database,
including the closing of the client connection itself. -/
inductive Cmd
  | replSetGetStatus
  | replSetGetConfig
  | replSetReconfig (newMembers : List String) (expectedVersion : Nat)
  | replSetInitiate (selfAddr : String)
  | ping
  | createUserCmd (username : String)
  | updateUserCmd (username : String)
  | dropUserCmd (username : String)
  | closeConnection
deriving DecidableEq, Repr

/-- Live replica-set state a connection observes: the stored configuration and
the per-member health labels reported by replSetGetStatus. -/
structure ReplState where
  config : ReplicaSetConfig
  health : List (String × String)
deriving DecidableEq, Repr

/-- Fault injection for the DatabaseClient: for each underlying command kind,
an optional error the client raises when that command runs. -/
structure FaultSpec where
  statusFault : Option DbError
  configFault : Option DbError
  reconfigFault : Option DbError
  initFault : Option DbError
  pingFault : Option DbError
  userFault : Option DbError
deriving DecidableEq, Repr

/-- Fault specification with no injected failures. -/
def noFaults : FaultSpec :=
  { statusFault := none, configFault := none, reconfigFault := none,
    initFault := none, pingFault := none, userFault := none }

/-- Result of running one connection operation: the returned value or error,
the trace of commands issued to the client, and the resulting replica-set
state. -/
structure OpRun (α : Type) where
  result : Except OpError α
  cmds : List Cmd
  state : ReplState
deriving Repr

/-- A member state label that means the member is still syncing. -/
def member_syncing (label : String) : Bool :=
  syncing_states.contains label

/-- Modelled from the spec: `is_any_sync` — some member of the status report
is in a syncing state. -/
def is_any_sync (health : List (String × String)) : Bool :=
  health.any (fun p => member_syncing p.2)

/-- Modelled from the spec: `is_any_removing` — some member of the status
report is mid-removal. -/
def is_any_removing (health : List (String × String)) : Bool :=
  health.any (fun p => p.2 = "REMOVED")

/-- Modelled from the spec: the StructuralNotReady check of `removeMember`,
which excludes the host being removed: some member other than that host is
syncing or mid-removal. -/
def is_any_unready_except (health : List (String × String)) (host : String) : Bool :=
  health.any (fun p => !(p.1 = host : Bool) && (member_syncing p.2 || (p.2 = "REMOVED" : Bool)))

/-- Modelled from the spec: `MongoConnection.add_replset_member` (absent from
src/). Reads the current status; if any existing member is syncing or
mid-removal it fails with NotReadyError before any reconfigure call; otherwise
it issues one reconfigure adding the host, conditioned on the just-read
version, and propagates any DatabaseClient error unchanged. -/
def add_replset_member (st : ReplState) (f : FaultSpec) (host : String) : OpRun Unit :=
  match f.statusFault with
  | some e =>
    { result := Except.error (OpError.db e), cmds := [Cmd.replSetGetStatus], state := st }
  | none =>
    if is_any_sync st.health || is_any_removing st.health then
      { result := Except.error OpError.notReady, cmds := [Cmd.replSetGetStatus],
        state := st }
    else
      match f.reconfigFault with
      | some e =>
        { result := Except.error (OpError.db e),
          cmds := [Cmd.replSetGetStatus,
                   Cmd.replSetReconfig (st.config.members ++ [host]) st.config.version],
          state := st }
      | none =>
        { result := Except.ok (),
          cmds := [Cmd.replSetGetStatus,
                   Cmd.replSetReconfig (st.config.members ++ [host]) st.config.version],
          state := { st with
            config := (reconfigure st.config (st.config.members ++ [host])
              st.config.version).1 } }

/-- Modelled from the spec: `MongoConnection.remove_replset_member` (absent
from src/). Same shape as `add_replset_member`, but the StructuralNotReady
check excludes the host being removed; the surrounding bounded fixed-backoff
retry re-runs this whole read-decide-write attempt, so one attempt is
modelled. -/
def remove_replset_member (st : ReplState) (f : FaultSpec) (host : String) : OpRun Unit :=
  match f.statusFault with
  | some e =>
    { result := Except.error (OpError.db e), cmds := [Cmd.replSetGetStatus], state := st }
  | none =>
    if is_any_unready_except st.health host then
      { result := Except.error OpError.notReady, cmds := [Cmd.replSetGetStatus],
        state := st }
    else
      match f.reconfigFault with
      | some e =>
        { result := Except.error (OpError.db e),
          cmds := [Cmd.replSetGetStatus,
                   Cmd.replSetReconfig (st.config.members.erase host) st.config.version],
          state := st }
      | none =>
        { result := Except.ok (),
          cmds := [Cmd.replSetGetStatus,
                   Cmd.replSetReconfig (st.config.members.erase host) st.config.version],
          state := { st with
            config := (reconfigure st.config (st.config.members.erase host)
              st.config.version).1 } }

/-- Modelled from the spec: `MongoConnection.is_ready` (absent from src/) —
pings the database and swallows every DatabaseClient error, answering false
instead of raising. -/
def is_ready (st : ReplState) (f : FaultSpec) : OpRun Bool :=
  match f.pingFault with
  | some _ => { result := Except.ok false, cmds := [Cmd.ping], state := st }
  | none => { result := Except.ok true, cmds := [Cmd.ping], state := st }

/-- Modelled from the spec: `MongoConnection.init_replset` (absent from
src/) — issues replSetInitiate for the own address, propagating any
DatabaseClient error unchanged. -/
def init_replset (st : ReplState) (f : FaultSpec) (selfAddr : String) : OpRun Unit :=
  match f.initFault with
  | some e =>
    { result := Except.error (OpError.db e), cmds := [Cmd.replSetInitiate selfAddr],
      state := st }
  | none =>
    { result := Except.ok (), cmds := [Cmd.replSetInitiate selfAddr],
      state := { st with config := { members := [selfAddr], version := 1 } } }

/-- Modelled from the spec: `MongoConnection.get_replset_members` (absent from
src/) — reads the stored configuration, propagating any DatabaseClient error
unchanged. -/
def get_replset_members (st : ReplState) (f : FaultSpec) : OpRun (List String) :=
  match f.configFault with
  | some e =>
    { result := Except.error (OpError.db e), cmds := [Cmd.replSetGetConfig], state := st }
  | none =>
    { result := Except.ok st.config.members, cmds := [Cmd.replSetGetConfig], state := st }

/-- Modelled from the spec: `MongoConnection.create_user` (absent from src/) —
one user-admin command, errors propagated unchanged. -/
def create_user (st : ReplState) (f : FaultSpec) (username : String) : OpRun Unit :=
  match f.userFault with
  | some e =>
    { result := Except.error (OpError.db e), cmds := [Cmd.createUserCmd username],
      state := st }
  | none =>
    { result := Except.ok (), cmds := [Cmd.createUserCmd username], state := st }

/-- Modelled from the spec: `MongoConnection.update_user` (absent from src/) —
one user-admin command, errors propagated unchanged. -/
def update_user (st : ReplState) (f : FaultSpec) (username : String) : OpRun Unit :=
  match f.userFault with
  | some e =>
    { result := Except.error (OpError.db e), cmds := [Cmd.updateUserCmd username],
      state := st }
  | none =>
    { result := Except.ok (), cmds := [Cmd.updateUserCmd username], state := st }

/-- Modelled from the spec: `MongoConnection.drop_user` (absent from src/) —
one user-admin command, errors propagated unchanged. -/
def drop_user (st : ReplState) (f : FaultSpec) (username : String) : OpRun Unit :=
  match f.userFault with
  | some e =>
    { result := Except.error (OpError.db e), cmds := [Cmd.dropUserCmd username],
      state := st }
  | none =>
    { result := Except.ok (), cmds := [Cmd.dropUserCmd username], state := st }

/-- Modelled from the spec: the MongoConnection context manager — every public
operation runs inside a with-block that closes the underlying client
connection on exit, whether the body returned normally or raised. -/
def with_connection {α : Type} (r : OpRun α) : OpRun α :=
  { r with cmds := r.cmds ++ [Cmd.closeConnection] }

/-- True exactly for reconfigure commands, to count replSetReconfig calls. -/
def is_reconfig_cmd : Cmd → Bool
  | Cmd.replSetReconfig _ _ => true
  | _ => false

/-- Number of replSetReconfig calls in a command trace. -/
def reconfig_count (cmds : List Cmd) : Nat :=
  (cmds.filter is_reconfig_cmd).length

/-- Modelled from the spec: the lifecycle and integration events whose
handlers may touch replica-set membership, plus the periodic status check. -/
inductive ChEvent
  | startEvent
  | peerRelationJoined (host : String)
  | peerRelationDeparted (host : String)
  | updateStatus
deriving DecidableEq, Repr

/-- Modelled from the spec: the immutable per-node context passed into every
coordinator call: own address, declared role, and whether this node holds
cluster leadership. -/
structure NodeCtx where
  selfAddress : String
  role : Role
  isLeader : Bool
deriving DecidableEq, Repr

/-- Administrative operations an event handler may request, abstracted to
whether they mutate membership. -/
inductive AdminOp
  | initReplicaSet (selfAddr : String)
  | addMemberOp (host : String)
  | removeMemberOp (host : String)
  | readStatus
deriving DecidableEq, Repr

/-- Modelled from the spec: the event dispatch of the operator (absent from
src/): only the leader initialises the replica set on start and reconfigures
membership on peer joins and departures; every node may read status. -/
def handle_event (ctx : NodeCtx) : ChEvent → List AdminOp
  | ChEvent.startEvent =>
    if ctx.isLeader then [AdminOp.initReplicaSet ctx.selfAddress] else []
  | ChEvent.peerRelationJoined h =>
    if ctx.isLeader then [AdminOp.readStatus, AdminOp.addMemberOp h] else []
  | ChEvent.peerRelationDeparted h =>
    if ctx.isLeader then [AdminOp.readStatus, AdminOp.removeMemberOp h] else []
  | ChEvent.updateStatus => [AdminOp.readStatus]

/-- Sequential processing of an event list: one event runs to completion
before the next is dispatched. -/
def handle_events (ctx : NodeCtx) : List ChEvent → List AdminOp
  | [] => []
  | e :: es => handle_event ctx e ++ handle_events ctx es

/-- Membership-mutating administrative operations: replica-set initialisation
and add/remove-member reconfigurations. -/
def is_membership_mutation : AdminOp → Bool
  | AdminOp.initReplicaSet _ => true
  | AdminOp.addMemberOp _ => true
  | AdminOp.removeMemberOp _ => true
  | AdminOp.readStatus => false

lemma nonActiveSignal_of_active {s : StatusSignal}
    (h : s.severity = Severity.active) : nonActiveSignal (some s) = none := by
  simp [nonActiveSignal, h]

lemma nonActiveSignal_skip {o : Option StatusSignal} (h : active_or_absent o) :
    nonActiveSignal o = none := by
  cases o with
  | none => rfl
  | some s => simp [nonActiveSignal, h s rfl]

lemma nonActiveSignal_keep {s : StatusSignal} (h : s.severity ≠ Severity.active) :
    nonActiveSignal (some s) = some s := by
  simp [nonActiveSignal, h]

/-- C1: the status aggregator merges the node replication-health (mongodb),
sharding/topology (shard), cross-cluster (config_server) and backup (pbm)
signals by fixed precedence — the first non-Active, non-absent signal in that
order is reported; in particular a non-Active node replication-health signal
is reported regardless of the backup signal, the backup signal is reported
only when all higher-precedence signals are Active or absent, and when every
signal is Active or absent the node replication-health signal is reported. -/
theorem prioritize_statuses_fixed_precedence (st : Statuses) :
    (st.mongodb.severity ≠ Severity.active → prioritize_statuses st = st.mongodb) ∧
    (st.mongodb.severity = Severity.active →
      ∀ s, st.shard = some s → s.severity ≠ Severity.active →
        prioritize_statuses st = s) ∧
    (st.mongodb.severity = Severity.active → active_or_absent st.shard →
      ∀ s, st.config_server = some s → s.severity ≠ Severity.active →
        prioritize_statuses st = s) ∧
    (st.mongodb.severity = Severity.active → active_or_absent st.shard →
      active_or_absent st.config_server →
      ∀ s, st.pbm = some s → s.severity ≠ Severity.active →
        prioritize_statuses st = s) ∧
    (st.mongodb.severity = Severity.active → active_or_absent st.shard →
      active_or_absent st.config_server → active_or_absent st.pbm →
      prioritize_statuses st = st.mongodb) := by
  obtain ⟨m, sh, cs, pb⟩ := st
  refine ⟨?_, ?_, ?_, ?_, ?_⟩
  · intro hm
    simp [prioritize_statuses, List.findSome?, nonActiveSignal_keep hm]
  · intro hm s hsh hs
    subst hsh
    simp [prioritize_statuses, List.findSome?, nonActiveSignal_of_active hm,
      nonActiveSignal_keep hs]
  · intro hm hsh s hcs hs
    subst hcs
    simp [prioritize_statuses, List.findSome?, nonActiveSignal_of_active hm,
      nonActiveSignal_skip hsh, nonActiveSignal_keep hs]
  · intro hm hsh hcs s hpb hs
    subst hpb
    simp [prioritize_statuses, List.findSome?, nonActiveSignal_of_active hm,
      nonActiveSignal_skip hsh, nonActiveSignal_skip hcs, nonActiveSignal_keep hs]
  · intro hm hsh hcs hpb
    simp [prioritize_statuses, List.findSome?, nonActiveSignal_of_active hm,
      nonActiveSignal_skip hsh, nonActiveSignal_skip hcs, nonActiveSignal_skip hpb]

/-- Witness for C1: with node health Active and the lower-precedence signals
absent, a Blocked backup signal is the reported status. -/
theorem prioritize_statuses_fixed_precedence_witness :
    prioritize_statuses
      ⟨⟨Severity.active, ""⟩, none, none, some ⟨Severity.blocked, "pbm"⟩⟩ =
      ⟨Severity.blocked, "pbm"⟩ :=
  (prioritize_statuses_fixed_precedence
      ⟨⟨Severity.active, ""⟩, none, none, some ⟨Severity.blocked, "pbm"⟩⟩).2.2.2.1
    rfl (fun s hs => by cases hs) (fun s hs => by cases hs)
    ⟨Severity.blocked, "pbm"⟩ rfl (by decide)

/-- C2: the node replication-health signal derived from the replSetGetStatus
health map is Active("Primary") for a PRIMARY own label, Active("") for
SECONDARY, Waiting("Member is syncing...") for the four syncing labels,
Waiting("Member is removing...") for REMOVED, Waiting("Member being added.")
when the own address is absent from the map, and Blocked carrying the label
text for any other label. -/
theorem unit_health_signal_cases (statusMap : List (String × String)) (selfAddr : String) :
    (replset_lookup statusMap selfAddr = some "PRIMARY" →
      unit_health_signal statusMap selfAddr = ⟨Severity.active, "Primary"⟩) ∧
    (replset_lookup statusMap selfAddr = some "SECONDARY" →
      unit_health_signal statusMap selfAddr = ⟨Severity.active, ""⟩) ∧
    (∀ label, label ∈ syncing_states → replset_lookup statusMap selfAddr = some label →
      unit_health_signal statusMap selfAddr =
        ⟨Severity.waiting, "Member is syncing..."⟩) ∧
    (replset_lookup statusMap selfAddr = some "REMOVED" →
      unit_health_signal statusMap selfAddr =
        ⟨Severity.waiting, "Member is removing..."⟩) ∧
    (replset_lookup statusMap selfAddr = none →
      unit_health_signal statusMap selfAddr =
        ⟨Severity.waiting, "Member being added."⟩) ∧
    (∀ label, replset_lookup statusMap selfAddr = some label →
      label ≠ "PRIMARY" → label ≠ "SECONDARY" → label ∉ syncing_states →
      label ≠ "REMOVED" →
      unit_health_signal statusMap selfAddr = ⟨Severity.blocked, label⟩) := by
  refine ⟨?_, ?_, ?_, ?_, ?_, ?_⟩
  · intro h
    simp [unit_health_signal, h]
  · intro h
    simp [unit_health_signal, h, syncing_states]
  · intro label hmem h
    simp [syncing_states] at hmem
    rcases hmem with rfl | rfl | rfl | rfl <;>
      simp [unit_health_signal, h, syncing_states]
  · intro h
    simp [unit_health_signal, h, syncing_states]
  · intro h
    simp [unit_health_signal, h]
  · intro label h h1 h2 h3 h4
    simp [unit_health_signal, h, h1, h2, h3, h4]

/-- Witness for C2: a PRIMARY own label yields Active("Primary"). -/
theorem unit_health_signal_cases_witness :
    unit_health_signal [("1.1.1.1", "PRIMARY")] "1.1.1.1" =
      ⟨Severity.active, "Primary"⟩ :=
  (unit_health_signal_cases [("1.1.1.1", "PRIMARY")] "1.1.1.1").1 rfl

/-- Counterexample to C3 as stated: in a replica set whose only member is
mid-removal, removeMember of exactly that member does not fail with
NotReadyError — the host being removed is excluded from the readiness check —
and it issues a reconfigure call. -/
theorem remove_member_unready_self_counterexample :
    is_any_removing [("1.1.1.1", "REMOVED")] = true ∧
    (remove_replset_member ⟨⟨["1.1.1.1"], 3⟩, [("1.1.1.1", "REMOVED")]⟩ noFaults
        "1.1.1.1").result ≠ Except.error OpError.notReady ∧
    reconfig_count (remove_replset_member ⟨⟨["1.1.1.1"], 3⟩, [("1.1.1.1", "REMOVED")]⟩
        noFaults "1.1.1.1").cmds = 1 := by
  refine ⟨rfl, ?_, rfl⟩
  have hres :
      (remove_replset_member ⟨⟨["1.1.1.1"], 3⟩, [("1.1.1.1", "REMOVED")]⟩ noFaults
        "1.1.1.1").result = Except.ok () := rfl
  rw [hres]
  exact fun h => Except.noConfusion h

/-- C3 (amended): when the DatabaseClient status read works, addMember fails
with NotReadyError, issues zero reconfigure calls and leaves the replica-set
state unchanged whenever some existing member is syncing or mid-removal;
removeMember(host) does the same whenever some member other than host itself
is syncing or mid-removal (the host being removed is excluded from its
readiness check). -/
theorem membership_not_ready_no_reconfig (st : ReplState) (f : FaultSpec) (host : String)
    (hs : f.statusFault = none) :
    ((is_any_sync st.health = true ∨ is_any_removing st.health = true) →
      (add_replset_member st f host).result = Except.error OpError.notReady ∧
      reconfig_count (add_replset_member st f host).cmds = 0 ∧
      (add_replset_member st f host).state = st) ∧
    (is_any_unready_except st.health host = true →
      (remove_replset_member st f host).result = Except.error OpError.notReady ∧
      reconfig_count (remove_replset_member st f host).cmds = 0 ∧
      (remove_replset_member st f host).state = st) := by
  constructor
  · intro h
    have hcond : (is_any_sync st.health || is_any_removing st.health) = true := by
      rcases h with h | h <;> simp [h]
    simp [add_replset_member, hs, hcond, reconfig_count, is_reconfig_cmd]
  · intro h
    simp [remove_replset_member, hs, h, reconfig_count, is_reconfig_cmd]

/-- Witness for C3 (amended): with a STARTUP2 member present, addMember fails
with NotReadyError. -/
theorem membership_not_ready_no_reconfig_witness :
    (add_replset_member ⟨⟨["1.1.1.1"], 3⟩, [("1.1.1.1", "STARTUP2")]⟩ noFaults
        "host").result = Except.error OpError.notReady :=
  ((membership_not_ready_no_reconfig ⟨⟨["1.1.1.1"], 3⟩, [("1.1.1.1", "STARTUP2")]⟩
      noFaults "host" rfl).1 (Or.inl rfl)).1

/-- C4: every DatabaseClient error raised during a membership operation is
re-raised to the caller exactly as classified — never absorbed — and no
reconfigure call is issued after the error: a failing status read aborts the
operation with zero reconfigure calls, and a failing reconfigure is the last
command issued; in both cases the replica-set state is unchanged. -/
theorem membership_errors_propagate (st : ReplState) (f : FaultSpec) (host : String)
    (e : DbError) :
    (f.statusFault = some e →
      (add_replset_member st f host).result = Except.error (OpError.db e) ∧
      reconfig_count (add_replset_member st f host).cmds = 0 ∧
      (add_replset_member st f host).state = st ∧
      (remove_replset_member st f host).result = Except.error (OpError.db e) ∧
      reconfig_count (remove_replset_member st f host).cmds = 0 ∧
      (remove_replset_member st f host).state = st) ∧
    (f.statusFault = none → f.reconfigFault = some e →
      is_any_sync st.health = false → is_any_removing st.health = false →
      (add_replset_member st f host).result = Except.error (OpError.db e) ∧
      (add_replset_member st f host).cmds =
        [Cmd.replSetGetStatus,
         Cmd.replSetReconfig (st.config.members ++ [host]) st.config.version] ∧
      (add_replset_member st f host).state = st) ∧
    (f.statusFault = none → f.reconfigFault = some e →
      is_any_unready_except st.health host = false →
      (remove_replset_member st f host).result = Except.error (OpError.db e) ∧
      (remove_replset_member st f host).cmds =
        [Cmd.replSetGetStatus,
         Cmd.replSetReconfig (st.config.members.erase host) st.config.version] ∧
      (remove_replset_member st f host).state = st) := by
  refine ⟨?_, ?_, ?_⟩
  · intro h
    simp [add_replset_member, remove_replset_member, h, reconfig_count, is_reconfig_cmd]
  · intro h1 h2 h3 h4
    simp [add_replset_member, h1, h2, h3, h4]
  · intro h1 h2 h3
    simp [remove_replset_member, h1, h2, h3]

/-- Witness for C4: a ConnectionFailure from the status read is re-raised by
addMember unchanged. -/
theorem membership_errors_propagate_witness :
    (add_replset_member ⟨⟨["a"], 1⟩, [("a", "PRIMARY")]⟩
        { noFaults with statusFault := some (DbError.connectionFailure "error message") }
        "b").result =
      Except.error (OpError.db (DbError.connectionFailure "error message")) :=
  ((membership_errors_propagate ⟨⟨["a"], 1⟩, [("a", "PRIMARY")]⟩
      { noFaults with statusFault := some (DbError.connectionFailure "error message") }
      "b" (DbError.connectionFailure "error message")).1 rfl).1

/-- C5: for a shard linked to a config-server (and no higher-precedence
violation present), a TLS parity mismatch yields a Blocked status whose
message distinguishes which side lacks TLS: the shard having TLS while the
config-server does not yields exactly "Shard has TLS enabled, but
config-server does not.", and the config-server having TLS while the shard
does not yields the message that the shard requires TLS. -/
theorem shard_config_server_tls_mismatch (ints : List Integration) (s c : Integration)
    (hfs : find_kind ints IntegrationKind.shardLink = some s)
    (hfc : find_kind ints IntegrationKind.configServerLink = some c)
    (hcl : has_kind ints IntegrationKind.clientLink = false)
    (hcc : count_kind ints IntegrationKind.configServerLink = 1)
    (hr : has_kind ints IntegrationKind.routerLink = false)
    (hb : has_kind ints IntegrationKind.backupLink = false) :
    (s.tlsEnabled = true → c.tlsEnabled = false →
      topology_validator Role.shard ints =
        some ⟨Severity.blocked, "Shard has TLS enabled, but config-server does not."⟩) ∧
    (c.tlsEnabled = true → s.tlsEnabled = false →
      topology_validator Role.shard ints =
        some ⟨Severity.blocked, "Shard requires TLS to be enabled"⟩) := by
  constructor <;> intro h1 h2 <;>
    simp [topology_validator, hfs, hfc, hcl, hcc, hr, hb, tls_pair_status, h1, h2]

/-- Witness for C5: a TLS-enabled shard against a TLS-less config-server is
Blocked with the exact message from the integration test. -/
theorem shard_config_server_tls_mismatch_witness :
    topology_validator Role.shard
      [⟨IntegrationKind.shardLink, true, none⟩,
       ⟨IntegrationKind.configServerLink, false, none⟩] =
      some ⟨Severity.blocked, "Shard has TLS enabled, but config-server does not."⟩ :=
  (shard_config_server_tls_mismatch
      [⟨IntegrationKind.shardLink, true, none⟩,
       ⟨IntegrationKind.configServerLink, false, none⟩]
      ⟨IntegrationKind.shardLink, true, none⟩
      ⟨IntegrationKind.configServerLink, false, none⟩
      rfl rfl rfl rfl rfl rfl).1 rfl rfl

/-- C6: a node whose role is Replication with a ShardLink or a
ConfigServerLink in its integration set is Blocked by the topology validator
with the violation that a replica-set role cannot participate in sharding
topology, for every such integration set. -/
theorem replication_role_sharding_links_blocked (ints : List Integration)
    (h : has_kind ints IntegrationKind.shardLink = true ∨
      has_kind ints IntegrationKind.configServerLink = true) :
    topology_validator Role.replication ints =
      some ⟨Severity.blocked,
        "replica-set role cannot participate in sharding topology"⟩ := by
  rcases h with h | h <;> simp [topology_validator, h]

/-- Witness for C6: a replication node holding a shard link is Blocked. -/
theorem replication_role_sharding_links_blocked_witness :
    topology_validator Role.replication [⟨IntegrationKind.shardLink, false, none⟩] =
      some ⟨Severity.blocked,
        "replica-set role cannot participate in sharding topology"⟩ :=
  replication_role_sharding_links_blocked [⟨IntegrationKind.shardLink, false, none⟩]
    (Or.inl rfl)

/-- C7: the backup-state classifier is a total function of the probe output:
no backup configuration yields no signal; a running object of kind resync
yields severity Waiting; a running object of any other kind yields severity
Maintenance; failure output embedding the credential-error code 403 yields
Blocked; failure output embedding the config-error code 404 yields Blocked;
an empty running object yields Active. -/
theorem get_pbm_status_classification (out : String) (op : RunningOp) :
    (get_pbm_status PbmProbe.noConfig = Except.ok none) ∧
    (op.opKind = "resync" →
      pbm_signal_severity (PbmProbe.statusOutput (some op)) = some Severity.waiting) ∧
    (op.opKind ≠ "resync" →
      pbm_signal_severity (PbmProbe.statusOutput (some op)) =
        some Severity.maintenance) ∧
    (contains_substr out "status code: 403" = true →
      pbm_signal_severity (PbmProbe.failureOutput out) = some Severity.blocked) ∧
    (contains_substr out "status code: 403" = false →
      contains_substr out "status code: 404" = true →
      pbm_signal_severity (PbmProbe.failureOutput out) = some Severity.blocked) ∧
    (pbm_signal_severity (PbmProbe.statusOutput none) = some Severity.active) := by
  refine ⟨rfl, ?_, ?_, ?_, ?_, rfl⟩
  · intro h
    simp [pbm_signal_severity, get_pbm_status, h, Except.toOption]
  · intro h
    simp [pbm_signal_severity, get_pbm_status, h, Except.toOption]
  · intro h
    simp [pbm_signal_severity, get_pbm_status, h, Except.toOption]
  · intro h1 h2
    simp [pbm_signal_severity, get_pbm_status, h1, h2, Except.toOption]

/-- Witness for C7: the resync fixture from the unit tests classifies as
Waiting. -/
theorem get_pbm_status_classification_witness :
    pbm_signal_severity
        (PbmProbe.statusOutput (some ⟨"resync", "64f5cc22a73b330c3880e3b2"⟩)) =
      some Severity.waiting :=
  (get_pbm_status_classification "" ⟨"resync", "64f5cc22a73b330c3880e3b2"⟩).2.1 rfl

lemma applyReconfigs_version_mono (reqs : List ReconfigReq) :
    ∀ cfg : ReplicaSetConfig, cfg.version ≤ (applyReconfigs cfg reqs).version := by
  induction reqs with
  | nil => intro cfg; exact Nat.le_refl _
  | cons r rs ih =>
    intro cfg
    refine Nat.le_trans ?_ (ih (reconfigure cfg r.newMembers r.expectedVersion).1)
    by_cases h : r.expectedVersion = cfg.version <;> simp [reconfigure, h]

/-- C8: an accepted reconfiguration increases the version by exactly 1, a
rejected write leaves both the version and the member set unchanged, and over
every history of reconfigure requests the version never decreases. -/
theorem replica_config_version_invariant (cfg : ReplicaSetConfig) (nm : List String)
    (ev : Nat) (reqs : List ReconfigReq) :
    ((reconfigure cfg nm ev).2 = ReconfigResult.accepted →
      (reconfigure cfg nm ev).1.version = cfg.version + 1) ∧
    ((reconfigure cfg nm ev).2 = ReconfigResult.versionConflict →
      (reconfigure cfg nm ev).1 = cfg) ∧
    cfg.version ≤ (applyReconfigs cfg reqs).version := by
  refine ⟨?_, ?_, applyReconfigs_version_mono reqs cfg⟩ <;>
    by_cases h : ev = cfg.version <;> simp [reconfigure, h]

/-- Witness for C8: an accepted write at the expected version bumps the
version from 3 to 4. -/
theorem replica_config_version_invariant_witness :
    (reconfigure ⟨["a"], 3⟩ ["a", "b"] 3).1.version = 3 + 1 :=
  (replica_config_version_invariant ⟨["a"], 3⟩ ["a", "b"] 3 []).1 rfl

/-- C9: a node that does not hold cluster leadership never issues a
membership-mutating operation — across every event sequence, no replica-set
initialisation and no add/remove-member reconfiguration is requested by its
handlers. -/
theorem non_leader_never_mutates (ctx : NodeCtx) (evs : List ChEvent)
    (h : ctx.isLeader = false) :
    (handle_events ctx evs).filter is_membership_mutation = [] := by
  induction evs with
  | nil => rfl
  | cons e es ih =>
    cases e <;>
      simp [handle_events, handle_event, h, List.filter_append, ih,
        is_membership_mutation]

/-- Witness for C9: a non-leader processing start, a peer join and a status
check requests no membership mutation. -/
theorem non_leader_never_mutates_witness :
    (handle_events ⟨"1.1.1.1", Role.replication, false⟩
        [ChEvent.startEvent, ChEvent.peerRelationJoined "127.4.5.6",
         ChEvent.updateStatus]).filter is_membership_mutation = [] :=
  non_leader_never_mutates ⟨"1.1.1.1", Role.replication, false⟩
    [ChEvent.startEvent, ChEvent.peerRelationJoined "127.4.5.6",
     ChEvent.updateStatus] rfl

/-- C10: every connection operation, run inside the connection context
manager, closes the underlying client connection as its final client
interaction, on success as well as on any injected DatabaseClient failure;
and is_ready never raises — under a ping failure it returns false. -/
theorem connection_ops_close_and_ready_safe (st : ReplState) (f : FaultSpec)
    (host selfAddr username : String) :
    ((with_connection (is_ready st f)).cmds.getLast? = some Cmd.closeConnection) ∧
    ((with_connection (init_replset st f selfAddr)).cmds.getLast? =
      some Cmd.closeConnection) ∧
    ((with_connection (get_replset_members st f)).cmds.getLast? =
      some Cmd.closeConnection) ∧
    ((with_connection (add_replset_member st f host)).cmds.getLast? =
      some Cmd.closeConnection) ∧
    ((with_connection (remove_replset_member st f host)).cmds.getLast? =
      some Cmd.closeConnection) ∧
    ((with_connection (create_user st f username)).cmds.getLast? =
      some Cmd.closeConnection) ∧
    ((with_connection (update_user st f username)).cmds.getLast? =
      some Cmd.closeConnection) ∧
    ((with_connection (drop_user st f username)).cmds.getLast? =
      some Cmd.closeConnection) ∧
    (∀ e : OpError, (is_ready st f).result ≠ Except.error e) ∧
    (∀ e : DbError, f.pingFault = some e → (is_ready st f).result = Except.ok false) := by
  refine ⟨?_, ?_, ?_, ?_, ?_, ?_, ?_, ?_, ?_, ?_⟩
  · simp [with_connection]
  · simp [with_connection]
  · simp [with_connection]
  · simp [with_connection]
  · simp [with_connection]
  · simp [with_connection]
  · simp [with_connection]
  · simp [with_connection]
  · intro e
    cases hp : f.pingFault <;> simp [is_ready, hp]
  · intro e hp
    simp [is_ready, hp]

/-- Witness for C10: under an injected ping failure, is_ready answers false
instead of raising. -/
theorem connection_ops_close_and_ready_safe_witness :
    (is_ready ⟨⟨["a"], 1⟩, [("a", "PRIMARY")]⟩
        { noFaults with pingFault := some (DbError.connectionFailure "error message") }
      ).result = Except.ok false :=
  ((connection_ops_close_and_ready_safe ⟨⟨["a"], 1⟩, [("a", "PRIMARY")]⟩
        { noFaults with pingFault := some (DbError.connectionFailure "error message") }
        "h" "a" "u").2.2.2.2.2.2.2.2.2)
    (DbError.connectionFailure "error message") rfl
